import Mathlib

/-!
# Resource-usage timer bridge

A shallow embedding of `org_apache_accumulo_core_util_Timer.cc`: four static
helpers over `getrusage` and the eight JNI entry points built from them.

Conventions of the embedding.

* The C `double` results are taken in exact arithmetic over `ℚ`; the literal
  `0.000001` is the rational `1 / 1000000`.
* A `long` is 64 bits wide. The members of a record are integers; an addition
  of two `long`s, made before the conversion to `double`, yields the
  two's-complement representative of the sum modulo `2 ^ 64` (`add_long`).
* The kernel is explicit state: a table giving the usage record of each
  accounting domain and a counter of the `getrusage` calls made so far.
* `struct rusage`, `RUSAGE_SELF`, `RUSAGE_THREAD` come from `<sys/resource.h>`
  and `SetLongArrayRegion` from the JNI; they are not part of the repository.
  The constants are parameters (`Platform`); the record is the LP64 layout in
  which every member is one `long` (and `long` has the width of `jlong`).
-/

namespace Timer

/-! ## Data model -/

/-- Seconds and microseconds, `struct timeval`. -/
structure timeval where
  tv_sec : Int
  tv_usec : Int
deriving DecidableEq, Repr

/-- The accounting record `struct rusage`: two `timeval`s followed by fourteen `long`s. -/
structure rusage where
  ru_utime : timeval
  ru_stime : timeval
  ru_maxrss : Int
  ru_ixrss : Int
  ru_idrss : Int
  ru_isrss : Int
  ru_minflt : Int
  ru_majflt : Int
  ru_nswap : Int
  ru_inblock : Int
  ru_oublock : Int
  ru_msgsnd : Int
  ru_msgrcv : Int
  ru_nsignals : Int
  ru_nvcsw : Int
  ru_nivcsw : Int
deriving DecidableEq, Repr

/-- The constants of `<sys/resource.h>`: `RUSAGE_SELF`, and `RUSAGE_THREAD` when the
header defines it. -/
structure Platform where
  RUSAGE_SELF : Int
  header_RUSAGE_THREAD : Option Int

/-- Kernel state: the usage record of every accounting domain, and the number of
`getrusage` calls issued so far. -/
structure Kernel where
  usage : Int → rusage
  queries : Nat

/-- What a raw-usage call leaves behind: the kernel state, the caller's array, and whether
an `ArrayIndexOutOfBoundsException` is pending. -/
structure RawOutcome where
  kernel : Kernel
  arr : List Int
  exceptionPending : Bool

/-! ## Platform facts -/

/-- Size in bytes of `long int` (LP64). -/
def sizeof_long_int : Nat := 8

/-- Size in bytes of `struct timeval`: two `long`s. -/
def sizeof_timeval : Nat := 2 * sizeof_long_int

/-- Size in bytes of `struct rusage`: two `timeval`s and fourteen `long`s. -/
def sizeof_rusage : Nat := 2 * sizeof_timeval + 14 * sizeof_long_int

/-- The memory image of a record read through `(const jlong *)&r`, in member order. -/
def rusage.words (r : rusage) : List Int :=
  [r.ru_utime.tv_sec, r.ru_utime.tv_usec, r.ru_stime.tv_sec, r.ru_stime.tv_usec,
   r.ru_maxrss, r.ru_ixrss, r.ru_idrss, r.ru_isrss, r.ru_minflt, r.ru_majflt,
   r.ru_nswap, r.ru_inblock, r.ru_oublock, r.ru_msgsnd, r.ru_msgrcv,
   r.ru_nsignals, r.ru_nvcsw, r.ru_nivcsw]

/-- Lines 30-32: `RUSAGE_THREAD` is the header's value, and `RUSAGE_SELF` when the header
has none. -/
def RUSAGE_THREAD (p : Platform) : Int :=
  match p.header_RUSAGE_THREAD with
  | some v => v
  | none => p.RUSAGE_SELF

/-- The system call `getrusage(who, &r)`: yields the record of domain `who` and counts one
query. -/
def getrusage (k : Kernel) (who : Int) : rusage × Kernel :=
  (k.usage who, { k with queries := k.queries + 1 })

/-- JNI `SetLongArrayRegion(arr, start, len, buf)`: when the region does not fit the array
an exception becomes pending and nothing is written; otherwise elements
`start .. start+len-1` are overwritten with the first `len` words of `buf`. -/
def SetLongArrayRegion (arr : List Int) (start len : Nat) (buf : List Int) : List Int × Bool :=
  if start + len > arr.length then (arr, true)
  else (arr.take start ++ buf.take len ++ arr.drop (start + len), false)

/-- The value a 64-bit `long` holds for the integer `x`: the representative of `x` modulo
`2 ^ 64` in the range `-2 ^ 63 .. 2 ^ 63 - 1`. -/
def wrap_long (x : Int) : Int :=
  (x + 2 ^ 63) % 2 ^ 64 - 2 ^ 63

/-- The C expression `a + b` on two `long` operands. -/
def add_long (a b : Int) : Int :=
  wrap_long (a + b)

/-! ## Helper functions (lines 37-74) -/

/-- Lines 37-46. -/
def getCpuTime (type : Int) (k : Kernel) : ℚ × Kernel :=
  let (r, k1) := getrusage k type
  let res : ℚ := ((add_long r.ru_utime.tv_sec r.ru_stime.tv_sec : Int) : ℚ)
  let res : ℚ :=
    res + (1 / 1000000 : ℚ) * ((add_long r.ru_utime.tv_usec r.ru_stime.tv_usec : Int) : ℚ)
  (res, k1)

/-- Lines 48-56. -/
def getUserTime (type : Int) (k : Kernel) : ℚ × Kernel :=
  let (r, k1) := getrusage k type
  let res : ℚ := (r.ru_utime.tv_sec : ℚ) + (1 / 1000000 : ℚ) * (r.ru_utime.tv_usec : ℚ)
  (res, k1)

/-- Lines 58-66. -/
def getSystemTime (type : Int) (k : Kernel) : ℚ × Kernel :=
  let (r, k1) := getrusage k type
  let res : ℚ := (r.ru_stime.tv_sec : ℚ) + (1 / 1000000 : ℚ) * (r.ru_stime.tv_usec : ℚ)
  (res, k1)

/-- Lines 68-74. -/
def getRusage (type : Int) (k : Kernel) (arr : List Int) : RawOutcome :=
  let (r, k1) := getrusage k type
  let (arr1, exc) := SetLongArrayRegion arr 0 (sizeof_rusage / sizeof_long_int) r.words
  { kernel := k1, arr := arr1, exceptionPending := exc }

/-! ## JNI calls (lines 79-126) -/

/-- Lines 79-83. -/
def Java_org_apache_accumulo_core_util_Timer_getProcessCpuTime (p : Platform) (k : Kernel) :
    ℚ × Kernel :=
  getCpuTime p.RUSAGE_SELF k

/-- Lines 85-89. -/
def Java_org_apache_accumulo_core_util_Timer_getProcessUserTime (p : Platform) (k : Kernel) :
    ℚ × Kernel :=
  getUserTime p.RUSAGE_SELF k

/-- Lines 91-95: the body is `return(RUSAGE_SELF);`, the constant converted to `jdouble`;
no helper is called. -/
def Java_org_apache_accumulo_core_util_Timer_getProcessSystemTime (p : Platform) (k : Kernel) :
    ℚ × Kernel :=
  ((p.RUSAGE_SELF : ℚ), k)

/-- Lines 97-101. -/
def Java_org_apache_accumulo_core_util_Timer_getProcessRUsage (p : Platform) (k : Kernel)
    (arr : List Int) : RawOutcome :=
  getRusage p.RUSAGE_SELF k arr

/-- Lines 104-108. -/
def Java_org_apache_accumulo_core_util_Timer_getThreadCpuTime (p : Platform) (k : Kernel) :
    ℚ × Kernel :=
  getCpuTime (RUSAGE_THREAD p) k

/-- Lines 110-114. -/
def Java_org_apache_accumulo_core_util_Timer_getThreadUserTime (p : Platform) (k : Kernel) :
    ℚ × Kernel :=
  getUserTime (RUSAGE_THREAD p) k

/-- Lines 116-120. -/
def Java_org_apache_accumulo_core_util_Timer_getThreadSystemTime (p : Platform) (k : Kernel) :
    ℚ × Kernel :=
  getSystemTime (RUSAGE_THREAD p) k

/-- Lines 122-126. -/
def Java_org_apache_accumulo_core_util_Timer_getThreadRUsage (p : Platform) (k : Kernel)
    (arr : List Int) : RawOutcome :=
  getRusage (RUSAGE_THREAD p) k arr

/-! ## Vocabulary of the properties -/

/-- The record word count `sizeof(struct rusage) / sizeof(long)`. -/
def recordWords : Nat := sizeof_rusage / sizeof_long_int

/-- An integer that a 64-bit `long` represents. -/
def fits_long (x : Int) : Prop :=
  -(2 ^ 63) ≤ x ∧ x < 2 ^ 63

/-- A `timeval` whose microseconds lie in `0 .. 999999`. -/
def timeval.normalised (t : timeval) : Prop :=
  0 ≤ t.tv_usec ∧ t.tv_usec < 1000000

/-- Lexicographic order on (seconds, microseconds). -/
def timeval.le (a b : timeval) : Prop :=
  a.tv_sec < b.tv_sec ∨ (a.tv_sec = b.tv_sec ∧ a.tv_usec ≤ b.tv_usec)

/-- Exact value in seconds of a `timeval`. -/
def timeval.seconds (t : timeval) : ℚ :=
  (t.tv_sec : ℚ) + (1 / 1000000 : ℚ) * (t.tv_usec : ℚ)

/-! ## Concrete inputs -/

/-- Linux: `RUSAGE_SELF` is 0 and the header defines `RUSAGE_THREAD` as 1. -/
def linux : Platform := { RUSAGE_SELF := 0, header_RUSAGE_THREAD := some 1 }

/-- A platform whose header has no `RUSAGE_THREAD` (the OSX case of lines 27-32). -/
def osx : Platform := { RUSAGE_SELF := 0, header_RUSAGE_THREAD := none }

/-- A record with 2.5 s of user time and 1.25 s of system time. -/
def busyRecord : rusage :=
  { ru_utime := { tv_sec := 2, tv_usec := 500000 },
    ru_stime := { tv_sec := 1, tv_usec := 250000 },
    ru_maxrss := 4096, ru_ixrss := 0, ru_idrss := 0, ru_isrss := 0,
    ru_minflt := 120, ru_majflt := 3, ru_nswap := 0, ru_inblock := 8, ru_oublock := 16,
    ru_msgsnd := 0, ru_msgrcv := 0, ru_nsignals := 0, ru_nvcsw := 40, ru_nivcsw := 7 }

/-- An earlier record of the same counters: 1.75 s user, 0.5 s system. -/
def earlyRecord : rusage :=
  { busyRecord with
    ru_utime := { tv_sec := 1, tv_usec := 750000 },
    ru_stime := { tv_sec := 0, tv_usec := 500000 } }

/-- A record whose user and system seconds are both `2 ^ 62`. -/
def hugeRecord : rusage :=
  { busyRecord with
    ru_utime := { tv_sec := 4611686018427387904, tv_usec := 0 },
    ru_stime := { tv_sec := 4611686018427387904, tv_usec := 0 } }

/-- A record just below `hugeRecord`: user seconds `2 ^ 62 - 1`, system seconds `2 ^ 62`. -/
def nearHugeRecord : rusage :=
  { busyRecord with
    ru_utime := { tv_sec := 4611686018427387903, tv_usec := 0 },
    ru_stime := { tv_sec := 4611686018427387904, tv_usec := 0 } }

/-- A kernel that reports `hugeRecord` for every domain. -/
def hugeKernel : Kernel := { usage := fun _ => hugeRecord, queries := 0 }

/-- A kernel that reports `nearHugeRecord` for every domain. -/
def nearHugeKernel : Kernel := { usage := fun _ => nearHugeRecord, queries := 0 }

/-- A kernel that reports `busyRecord` for every domain and has answered no query yet. -/
def busyKernel : Kernel := { usage := fun _ => busyRecord, queries := 0 }

/-- A kernel that reports `earlyRecord` for every domain and has answered no query yet. -/
def earlyKernel : Kernel := { usage := fun _ => earlyRecord, queries := 0 }

/-! ## Shared lemmas -/

theorem recordWords_eq : recordWords = 18 := by
  decide

theorem rusage_words_length (r : rusage) : r.words.length = recordWords := by
  simp [rusage.words, recordWords_eq]

theorem wrap_long_of_fits (x : Int) (h : fits_long x) : wrap_long x = x := by
  obtain ⟨h1, h2⟩ := h
  simp only [wrap_long]
  omega

theorem fits_long_usec_sum (a b : timeval) (ha : a.normalised) (hb : b.normalised) :
    fits_long (a.tv_usec + b.tv_usec) := by
  obtain ⟨ha1, ha2⟩ := ha
  obtain ⟨hb1, hb2⟩ := hb
  constructor <;> omega

theorem getCpuTime_value (type : Int) (k : Kernel)
    (hsec : fits_long ((k.usage type).ru_utime.tv_sec + (k.usage type).ru_stime.tv_sec))
    (husec : fits_long ((k.usage type).ru_utime.tv_usec + (k.usage type).ru_stime.tv_usec)) :
    (getCpuTime type k).1 =
      (k.usage type).ru_utime.seconds + (k.usage type).ru_stime.seconds := by
  simp only [getCpuTime, getrusage, timeval.seconds, add_long,
    wrap_long_of_fits _ hsec, wrap_long_of_fits _ husec]
  push_cast
  ring

theorem getUserTime_value (type : Int) (k : Kernel) :
    (getUserTime type k).1 = (k.usage type).ru_utime.seconds := by
  simp only [getUserTime, getrusage, timeval.seconds]

theorem getSystemTime_value (type : Int) (k : Kernel) :
    (getSystemTime type k).1 = (k.usage type).ru_stime.seconds := by
  simp only [getSystemTime, getrusage, timeval.seconds]

theorem getCpuTime_queries (type : Int) (k : Kernel) :
    (getCpuTime type k).2.queries = k.queries + 1 := by
  simp only [getCpuTime, getrusage]

theorem getUserTime_queries (type : Int) (k : Kernel) :
    (getUserTime type k).2.queries = k.queries + 1 := by
  simp only [getUserTime, getrusage]

theorem getSystemTime_queries (type : Int) (k : Kernel) :
    (getSystemTime type k).2.queries = k.queries + 1 := by
  simp only [getSystemTime, getrusage]

theorem getRusage_queries (type : Int) (k : Kernel) (arr : List Int) :
    (getRusage type k arr).kernel.queries = k.queries + 1 := by
  simp only [getRusage, getrusage]

theorem getRusage_short (type : Int) (k : Kernel) (arr : List Int)
    (h : arr.length < recordWords) :
    (getRusage type k arr).exceptionPending = true ∧ (getRusage type k arr).arr = arr := by
  have h2 : 0 + sizeof_rusage / sizeof_long_int > arr.length := by
    simpa [recordWords] using h
  simp only [getRusage, getrusage, SetLongArrayRegion, if_pos h2, and_self]

theorem getRusage_fits (type : Int) (k : Kernel) (arr : List Int)
    (h : recordWords ≤ arr.length) :
    (getRusage type k arr).exceptionPending = false ∧
      (getRusage type k arr).arr = (k.usage type).words ++ arr.drop recordWords := by
  have h2 : ¬ (0 + sizeof_rusage / sizeof_long_int > arr.length) := by
    simpa [recordWords] using h
  have h3 : ((k.usage type).words).take recordWords = (k.usage type).words := by
    rw [List.take_of_length_le]
    rw [rusage_words_length]
  simp only [getRusage, getrusage, SetLongArrayRegion, if_neg h2, true_and]
  simp only [List.take_zero, List.nil_append, Nat.zero_add]
  exact congrArg (· ++ arr.drop recordWords) h3

theorem timeval_seconds_mono (a b : timeval) (ha : a.normalised) (hb : b.normalised)
    (hab : a.le b) : a.seconds ≤ b.seconds := by
  obtain ⟨_, ha2⟩ := ha
  obtain ⟨hb1, _⟩ := hb
  have ha2q : (a.tv_usec : ℚ) < 1000000 := by exact_mod_cast ha2
  have hb1q : (0 : ℚ) ≤ (b.tv_usec : ℚ) := by exact_mod_cast hb1
  simp only [timeval.seconds]
  rcases hab with hlt | ⟨heq, hle⟩
  · have hs : (a.tv_sec : ℚ) + 1 ≤ (b.tv_sec : ℚ) := by exact_mod_cast hlt
    linarith
  · have hle2 : (a.tv_usec : ℚ) ≤ (b.tv_usec : ℚ) := by exact_mod_cast hle
    rw [heq]
    linarith

theorem timeval_seconds_nonneg (t : timeval) (hs : 0 ≤ t.tv_sec) (hu : 0 ≤ t.tv_usec) :
    0 ≤ t.seconds := by
  have hsq : (0 : ℚ) ≤ (t.tv_sec : ℚ) := by exact_mod_cast hs
  have huq : (0 : ℚ) ≤ (t.tv_usec : ℚ) := by exact_mod_cast hu
  simp only [timeval.seconds]
  linarith

/-! ## System time (C1) -/

/-- The process entry point returns the scope constant for every kernel state. -/
theorem getProcessSystemTime_eq (p : Platform) (k : Kernel) :
    Java_org_apache_accumulo_core_util_Timer_getProcessSystemTime p k = ((p.RUSAGE_SELF : ℚ), k) := by
  rfl

/-- The thread entry point returns the system time of the thread domain. -/
theorem getThreadSystemTime_value (p : Platform) (k : Kernel) :
    (Java_org_apache_accumulo_core_util_Timer_getThreadSystemTime p k).1 =
      ((k.usage (RUSAGE_THREAD p)).ru_stime.tv_sec : ℚ) +
        (1 / 1000000 : ℚ) * ((k.usage (RUSAGE_THREAD p)).ru_stime.tv_usec : ℚ) := by
  simp only [Java_org_apache_accumulo_core_util_Timer_getThreadSystemTime, getSystemTime, getrusage]

/-- C1, at the failing input: on Linux, with a kernel whose process record holds 1.25 s of
system time, getProcessSystemTime returns 0 (the constant RUSAGE_SELF) while
stime.seconds + 1e-6 * stime.microseconds is 5/4; getThreadSystemTime on the same kernel
returns 5/4. -/
theorem C1_getProcessSystemTime_returns_constant :
    (Java_org_apache_accumulo_core_util_Timer_getProcessSystemTime linux busyKernel).1 = 0 ∧
    ((busyKernel.usage linux.RUSAGE_SELF).ru_stime.tv_sec : ℚ) +
        (1 / 1000000 : ℚ) * ((busyKernel.usage linux.RUSAGE_SELF).ru_stime.tv_usec : ℚ) = 5 / 4 ∧
    (Java_org_apache_accumulo_core_util_Timer_getThreadSystemTime linux busyKernel).1 = 5 / 4 := by
  refine ⟨?_, ?_, ?_⟩
  · simp [Java_org_apache_accumulo_core_util_Timer_getProcessSystemTime, linux]
  · norm_num [busyKernel, busyRecord]
  · rw [getThreadSystemTime_value]
    norm_num [busyKernel, busyRecord]

/-! ## Additivity (C2) -/

/-- The thread triple is additive on every kernel state whose thread record has sums that
fit a `long`. -/
theorem thread_cpu_eq_user_add_system (p : Platform) (k : Kernel)
    (hsec : fits_long ((k.usage (RUSAGE_THREAD p)).ru_utime.tv_sec +
      (k.usage (RUSAGE_THREAD p)).ru_stime.tv_sec))
    (husec : fits_long ((k.usage (RUSAGE_THREAD p)).ru_utime.tv_usec +
      (k.usage (RUSAGE_THREAD p)).ru_stime.tv_usec)) :
    (Java_org_apache_accumulo_core_util_Timer_getThreadCpuTime p k).1 =
      (Java_org_apache_accumulo_core_util_Timer_getThreadUserTime p k).1 + (Java_org_apache_accumulo_core_util_Timer_getThreadSystemTime p k).1 := by
  simp only [Java_org_apache_accumulo_core_util_Timer_getThreadCpuTime, Java_org_apache_accumulo_core_util_Timer_getThreadUserTime, Java_org_apache_accumulo_core_util_Timer_getThreadSystemTime,
    getCpuTime_value _ _ hsec husec, getUserTime_value, getSystemTime_value]

/-- C2, at the failing input: on Linux, with a kernel whose process record holds 2.5 s of
user time and 1.25 s of system time, getProcessCpuTime is 15/4, getProcessUserTime is 5/2 and
getProcessSystemTime is 0, so cpu differs from user + system. -/
theorem C2_process_cpu_ne_user_add_system :
    (Java_org_apache_accumulo_core_util_Timer_getProcessCpuTime linux busyKernel).1 = 15 / 4 ∧
    (Java_org_apache_accumulo_core_util_Timer_getProcessUserTime linux busyKernel).1 = 5 / 2 ∧
    (Java_org_apache_accumulo_core_util_Timer_getProcessSystemTime linux busyKernel).1 = 0 ∧
    (Java_org_apache_accumulo_core_util_Timer_getProcessCpuTime linux busyKernel).1 ≠
      (Java_org_apache_accumulo_core_util_Timer_getProcessUserTime linux busyKernel).1 +
        (Java_org_apache_accumulo_core_util_Timer_getProcessSystemTime linux busyKernel).1 := by
  have hc : (Java_org_apache_accumulo_core_util_Timer_getProcessCpuTime linux busyKernel).1 = 15 / 4 := by
    norm_num [Java_org_apache_accumulo_core_util_Timer_getProcessCpuTime, getCpuTime, getrusage, add_long, wrap_long, busyKernel,
      busyRecord]
  have hu : (Java_org_apache_accumulo_core_util_Timer_getProcessUserTime linux busyKernel).1 = 5 / 2 := by
    norm_num [Java_org_apache_accumulo_core_util_Timer_getProcessUserTime, getUserTime, getrusage, busyKernel, busyRecord]
  have hs : (Java_org_apache_accumulo_core_util_Timer_getProcessSystemTime linux busyKernel).1 = 0 := by
    simp [Java_org_apache_accumulo_core_util_Timer_getProcessSystemTime, linux]
  refine ⟨hc, hu, hs, ?_⟩
  rw [hc, hu, hs]
  norm_num

/-! ## CPU time (C3) -/

/-- C3 refuted: on Linux, with a process record whose user and system seconds are both 2^62,
the long addition of line 43 wraps, getProcessCpuTime returns -2^63, and
utime.seconds + stime.seconds + 1e-6 * (utime.microseconds + stime.microseconds) is 2^63. -/
theorem C3_cpu_time_wraps :
    (Java_org_apache_accumulo_core_util_Timer_getProcessCpuTime linux hugeKernel).1 = -9223372036854775808 ∧
    ((hugeKernel.usage linux.RUSAGE_SELF).ru_utime.tv_sec : ℚ) +
        ((hugeKernel.usage linux.RUSAGE_SELF).ru_stime.tv_sec : ℚ) +
        (1 / 1000000 : ℚ) * (((hugeKernel.usage linux.RUSAGE_SELF).ru_utime.tv_usec : ℚ) +
          ((hugeKernel.usage linux.RUSAGE_SELF).ru_stime.tv_usec : ℚ)) = 9223372036854775808 ∧
    (Java_org_apache_accumulo_core_util_Timer_getProcessCpuTime linux hugeKernel).1 ≠
      ((hugeKernel.usage linux.RUSAGE_SELF).ru_utime.tv_sec : ℚ) +
        ((hugeKernel.usage linux.RUSAGE_SELF).ru_stime.tv_sec : ℚ) +
        (1 / 1000000 : ℚ) * (((hugeKernel.usage linux.RUSAGE_SELF).ru_utime.tv_usec : ℚ) +
          ((hugeKernel.usage linux.RUSAGE_SELF).ru_stime.tv_usec : ℚ)) := by
  have hc : (Java_org_apache_accumulo_core_util_Timer_getProcessCpuTime linux hugeKernel).1 = -9223372036854775808 := by
    norm_num [Java_org_apache_accumulo_core_util_Timer_getProcessCpuTime, getCpuTime, getrusage, add_long, wrap_long, hugeKernel,
      hugeRecord]
  have hf : ((hugeKernel.usage linux.RUSAGE_SELF).ru_utime.tv_sec : ℚ) +
        ((hugeKernel.usage linux.RUSAGE_SELF).ru_stime.tv_sec : ℚ) +
        (1 / 1000000 : ℚ) * (((hugeKernel.usage linux.RUSAGE_SELF).ru_utime.tv_usec : ℚ) +
          ((hugeKernel.usage linux.RUSAGE_SELF).ru_stime.tv_usec : ℚ)) = 9223372036854775808 := by
    norm_num [hugeKernel, hugeRecord]
  refine ⟨hc, hf, ?_⟩
  rw [hc, hf]
  norm_num

/-- C3 amended: for every platform and kernel state, and for each scope whose record has both
sums utime.seconds + stime.seconds and utime.microseconds + stime.microseconds within the range
of a 64-bit long, the cpu-time operation of that scope (getProcessCpuTime, getThreadCpuTime)
returns utime.seconds + stime.seconds + 1e-6 * (utime.microseconds + stime.microseconds)
(exact arithmetic). -/
theorem C3_cpu_time_formula (p : Platform) (k : Kernel) :
    (fits_long ((k.usage p.RUSAGE_SELF).ru_utime.tv_sec +
        (k.usage p.RUSAGE_SELF).ru_stime.tv_sec) →
      fits_long ((k.usage p.RUSAGE_SELF).ru_utime.tv_usec +
        (k.usage p.RUSAGE_SELF).ru_stime.tv_usec) →
      (Java_org_apache_accumulo_core_util_Timer_getProcessCpuTime p k).1 =
        ((k.usage p.RUSAGE_SELF).ru_utime.tv_sec : ℚ) +
          ((k.usage p.RUSAGE_SELF).ru_stime.tv_sec : ℚ) +
          (1 / 1000000 : ℚ) * (((k.usage p.RUSAGE_SELF).ru_utime.tv_usec : ℚ) +
            ((k.usage p.RUSAGE_SELF).ru_stime.tv_usec : ℚ))) ∧
    (fits_long ((k.usage (RUSAGE_THREAD p)).ru_utime.tv_sec +
        (k.usage (RUSAGE_THREAD p)).ru_stime.tv_sec) →
      fits_long ((k.usage (RUSAGE_THREAD p)).ru_utime.tv_usec +
        (k.usage (RUSAGE_THREAD p)).ru_stime.tv_usec) →
      (Java_org_apache_accumulo_core_util_Timer_getThreadCpuTime p k).1 =
        ((k.usage (RUSAGE_THREAD p)).ru_utime.tv_sec : ℚ) +
          ((k.usage (RUSAGE_THREAD p)).ru_stime.tv_sec : ℚ) +
          (1 / 1000000 : ℚ) * (((k.usage (RUSAGE_THREAD p)).ru_utime.tv_usec : ℚ) +
            ((k.usage (RUSAGE_THREAD p)).ru_stime.tv_usec : ℚ))) := by
  constructor
  · intro hsec husec
    simp only [Java_org_apache_accumulo_core_util_Timer_getProcessCpuTime, getCpuTime, getrusage, add_long,
      wrap_long_of_fits _ hsec, wrap_long_of_fits _ husec]
    push_cast
    ring
  · intro hsec husec
    simp only [Java_org_apache_accumulo_core_util_Timer_getThreadCpuTime, getCpuTime, getrusage, add_long,
      wrap_long_of_fits _ hsec, wrap_long_of_fits _ husec]
    push_cast
    ring

/-- Witness for C3 amended: Linux, a kernel reporting 2.5 s user and 1.25 s system time for
both domains; both entry points return 15/4. -/
theorem C3_cpu_time_formula_witness :
    fits_long ((busyKernel.usage linux.RUSAGE_SELF).ru_utime.tv_sec +
      (busyKernel.usage linux.RUSAGE_SELF).ru_stime.tv_sec) ∧
    fits_long ((busyKernel.usage linux.RUSAGE_SELF).ru_utime.tv_usec +
      (busyKernel.usage linux.RUSAGE_SELF).ru_stime.tv_usec) ∧
    (Java_org_apache_accumulo_core_util_Timer_getProcessCpuTime linux busyKernel).1 = 15 / 4 ∧
    (Java_org_apache_accumulo_core_util_Timer_getThreadCpuTime linux busyKernel).1 = 15 / 4 :=
  ⟨by norm_num [fits_long, busyKernel, busyRecord],
   by norm_num [fits_long, busyKernel, busyRecord],
   ((C3_cpu_time_formula linux busyKernel).1
      (by norm_num [fits_long, busyKernel, busyRecord])
      (by norm_num [fits_long, busyKernel, busyRecord])).trans
     (by norm_num [busyKernel, busyRecord]),
   ((C3_cpu_time_formula linux busyKernel).2
      (by norm_num [fits_long, busyKernel, busyRecord])
      (by norm_num [fits_long, busyKernel, busyRecord])).trans
     (by norm_num [busyKernel, busyRecord])⟩

/-! ## User time (C4) -/

/-- C4: for every platform and kernel state, getProcessUserTime and getThreadUserTime return
utime.seconds + 1e-6 * utime.microseconds of the record the kernel reports for the queried
domain (exact arithmetic), and the value is the same when the stime member of every record is
replaced by an arbitrary timeval. -/
theorem C4_user_time_formula (p : Platform) (k : Kernel) (s : timeval) :
    (Java_org_apache_accumulo_core_util_Timer_getProcessUserTime p k).1 =
      ((k.usage p.RUSAGE_SELF).ru_utime.tv_sec : ℚ) +
        (1 / 1000000 : ℚ) * ((k.usage p.RUSAGE_SELF).ru_utime.tv_usec : ℚ) ∧
    (Java_org_apache_accumulo_core_util_Timer_getThreadUserTime p k).1 =
      ((k.usage (RUSAGE_THREAD p)).ru_utime.tv_sec : ℚ) +
        (1 / 1000000 : ℚ) * ((k.usage (RUSAGE_THREAD p)).ru_utime.tv_usec : ℚ) ∧
    (Java_org_apache_accumulo_core_util_Timer_getProcessUserTime p
        { k with usage := fun who => { k.usage who with ru_stime := s } }).1 =
      (Java_org_apache_accumulo_core_util_Timer_getProcessUserTime p k).1 ∧
    (Java_org_apache_accumulo_core_util_Timer_getThreadUserTime p
        { k with usage := fun who => { k.usage who with ru_stime := s } }).1 =
      (Java_org_apache_accumulo_core_util_Timer_getThreadUserTime p k).1 := by
  refine ⟨?_, ?_, ?_, ?_⟩ <;>
    simp only [Java_org_apache_accumulo_core_util_Timer_getProcessUserTime, Java_org_apache_accumulo_core_util_Timer_getThreadUserTime, getUserTime, getrusage]

/-! ## Raw usage into a buffer of the wrong length (C5) -/

/-- C5 refuted: on Linux, a buffer of 19 zeros (one longer than the 18-word record) handed to
getProcessRUsage raises no exception and comes back changed. -/
theorem C5_longer_buffer_is_written :
    (List.replicate 19 (0 : Int)).length ≠ recordWords ∧
    (Java_org_apache_accumulo_core_util_Timer_getProcessRUsage linux busyKernel (List.replicate 19 0)).exceptionPending = false ∧
    (Java_org_apache_accumulo_core_util_Timer_getProcessRUsage linux busyKernel (List.replicate 19 0)).arr ≠
      List.replicate 19 0 := by
  decide

/-- C5 amended: for every buffer whose length differs from the record word count N,
getProcessRUsage and getThreadRUsage behave as follows. Either the buffer is shorter than N and
the call fails (an exception is pending) with every element unchanged; or the buffer is longer
than N and the call succeeds, with elements 0..N-1 overwritten by the words of the record and
the elements from N on unchanged. -/
theorem C5_wrong_length_buffer (p : Platform) (k : Kernel) (arr : List Int)
    (h : arr.length ≠ recordWords) :
    (arr.length < recordWords ∧
        (Java_org_apache_accumulo_core_util_Timer_getProcessRUsage p k arr).exceptionPending = true ∧
        (Java_org_apache_accumulo_core_util_Timer_getProcessRUsage p k arr).arr = arr ∧
        (Java_org_apache_accumulo_core_util_Timer_getThreadRUsage p k arr).exceptionPending = true ∧
        (Java_org_apache_accumulo_core_util_Timer_getThreadRUsage p k arr).arr = arr) ∨
    (recordWords < arr.length ∧
        (Java_org_apache_accumulo_core_util_Timer_getProcessRUsage p k arr).exceptionPending = false ∧
        (Java_org_apache_accumulo_core_util_Timer_getProcessRUsage p k arr).arr =
          (k.usage p.RUSAGE_SELF).words ++ arr.drop recordWords ∧
        (Java_org_apache_accumulo_core_util_Timer_getThreadRUsage p k arr).exceptionPending = false ∧
        (Java_org_apache_accumulo_core_util_Timer_getThreadRUsage p k arr).arr =
          (k.usage (RUSAGE_THREAD p)).words ++ arr.drop recordWords) := by
  rcases Nat.lt_or_gt_of_ne h with hlt | hgt
  · left
    have h1 := getRusage_short p.RUSAGE_SELF k arr hlt
    have h2 := getRusage_short (RUSAGE_THREAD p) k arr hlt
    exact ⟨hlt, h1.1, h1.2, h2.1, h2.2⟩
  · right
    have h1 := getRusage_fits p.RUSAGE_SELF k arr (Nat.le_of_lt hgt)
    have h2 := getRusage_fits (RUSAGE_THREAD p) k arr (Nat.le_of_lt hgt)
    exact ⟨hgt, h1.1, h1.2, h2.1, h2.2⟩

/-- Witness for C5 amended: a buffer of 3 words (too short) on Linux. -/
theorem C5_wrong_length_buffer_witness :
    (List.replicate 3 (0 : Int)).length ≠ recordWords ∧
    (((List.replicate 3 (0 : Int)).length < recordWords ∧
        (Java_org_apache_accumulo_core_util_Timer_getProcessRUsage linux busyKernel (List.replicate 3 0)).exceptionPending = true ∧
        (Java_org_apache_accumulo_core_util_Timer_getProcessRUsage linux busyKernel (List.replicate 3 0)).arr = List.replicate 3 0 ∧
        (Java_org_apache_accumulo_core_util_Timer_getThreadRUsage linux busyKernel (List.replicate 3 0)).exceptionPending = true ∧
        (Java_org_apache_accumulo_core_util_Timer_getThreadRUsage linux busyKernel (List.replicate 3 0)).arr = List.replicate 3 0) ∨
      (recordWords < (List.replicate 3 (0 : Int)).length ∧
        (Java_org_apache_accumulo_core_util_Timer_getProcessRUsage linux busyKernel (List.replicate 3 0)).exceptionPending = false ∧
        (Java_org_apache_accumulo_core_util_Timer_getProcessRUsage linux busyKernel (List.replicate 3 0)).arr =
          (busyKernel.usage linux.RUSAGE_SELF).words ++ (List.replicate 3 0).drop recordWords ∧
        (Java_org_apache_accumulo_core_util_Timer_getThreadRUsage linux busyKernel (List.replicate 3 0)).exceptionPending = false ∧
        (Java_org_apache_accumulo_core_util_Timer_getThreadRUsage linux busyKernel (List.replicate 3 0)).arr =
          (busyKernel.usage (RUSAGE_THREAD linux)).words ++
            (List.replicate 3 0).drop recordWords)) :=
  ⟨by decide, C5_wrong_length_buffer linux busyKernel (List.replicate 3 0) (by decide)⟩

/-! ## Raw usage into a buffer of the record length (C6) -/

/-- C6: for every buffer of length exactly N = sizeof(struct rusage)/sizeof(long) and every
kernel state, getProcessRUsage and getThreadRUsage succeed (no exception pending) and leave the
buffer equal to the list of the N words of the reported record in record order, so every index
0..N-1 holds the matching word; the buffer length is unchanged. -/
theorem C6_exact_length_buffer (p : Platform) (k : Kernel) (arr : List Int)
    (h : arr.length = recordWords) :
    ((Java_org_apache_accumulo_core_util_Timer_getProcessRUsage p k arr).exceptionPending = false ∧
      (Java_org_apache_accumulo_core_util_Timer_getProcessRUsage p k arr).arr = (k.usage p.RUSAGE_SELF).words ∧
      (∀ i, i < recordWords →
        (Java_org_apache_accumulo_core_util_Timer_getProcessRUsage p k arr).arr[i]? = (k.usage p.RUSAGE_SELF).words[i]?) ∧
      (Java_org_apache_accumulo_core_util_Timer_getProcessRUsage p k arr).arr.length = arr.length) ∧
    ((Java_org_apache_accumulo_core_util_Timer_getThreadRUsage p k arr).exceptionPending = false ∧
      (Java_org_apache_accumulo_core_util_Timer_getThreadRUsage p k arr).arr = (k.usage (RUSAGE_THREAD p)).words ∧
      (∀ i, i < recordWords →
        (Java_org_apache_accumulo_core_util_Timer_getThreadRUsage p k arr).arr[i]? = (k.usage (RUSAGE_THREAD p)).words[i]?) ∧
      (Java_org_apache_accumulo_core_util_Timer_getThreadRUsage p k arr).arr.length = arr.length) := by
  have key : ∀ type : Int, (getRusage type k arr).exceptionPending = false ∧
      (getRusage type k arr).arr = (k.usage type).words := by
    intro type
    have hf := getRusage_fits type k arr (Nat.le_of_eq h.symm)
    have hd : arr.drop recordWords = [] := by
      rw [List.drop_eq_nil_iff]
      exact Nat.le_of_eq h
    rw [hd, List.append_nil] at hf
    exact hf
  have h1 := key p.RUSAGE_SELF
  have h2 := key (RUSAGE_THREAD p)
  refine ⟨⟨h1.1, h1.2, ?_, ?_⟩, ⟨h2.1, h2.2, ?_, ?_⟩⟩
  · intro i _
    simp only [Java_org_apache_accumulo_core_util_Timer_getProcessRUsage, h1.2]
  · simp only [Java_org_apache_accumulo_core_util_Timer_getProcessRUsage, h1.2, rusage_words_length, h]
  · intro i _
    simp only [Java_org_apache_accumulo_core_util_Timer_getThreadRUsage, h2.2]
  · simp only [Java_org_apache_accumulo_core_util_Timer_getThreadRUsage, h2.2, rusage_words_length, h]

/-- Witness for C6: a buffer of 18 zeros on Linux. -/
theorem C6_exact_length_buffer_witness :
    (List.replicate 18 (0 : Int)).length = recordWords ∧
    (Java_org_apache_accumulo_core_util_Timer_getProcessRUsage linux busyKernel (List.replicate 18 0)).exceptionPending = false ∧
    (Java_org_apache_accumulo_core_util_Timer_getProcessRUsage linux busyKernel (List.replicate 18 0)).arr =
      [2, 500000, 1, 250000, 4096, 0, 0, 0, 120, 3, 0, 8, 16, 0, 0, 0, 40, 7] :=
  ⟨by decide,
   (C6_exact_length_buffer linux busyKernel (List.replicate 18 0) (by decide)).1.1,
   ((C6_exact_length_buffer linux busyKernel (List.replicate 18 0) (by decide)).1.2.1).trans
     (by decide)⟩

/-! ## Degraded thread scope (C7) -/

/-- C7: on a platform whose header does not define RUSAGE_THREAD, getThreadCpuTime returns, for
every kernel state, exactly what getProcessCpuTime returns on that state (same value, same
resulting kernel state): both query the domain RUSAGE_SELF. -/
theorem C7_thread_cpu_degrades_to_process (p : Platform) (k : Kernel)
    (h : p.header_RUSAGE_THREAD = none) :
    RUSAGE_THREAD p = p.RUSAGE_SELF ∧
    Java_org_apache_accumulo_core_util_Timer_getThreadCpuTime p k = Java_org_apache_accumulo_core_util_Timer_getProcessCpuTime p k := by
  have hd : RUSAGE_THREAD p = p.RUSAGE_SELF := by
    simp only [RUSAGE_THREAD, h]
  refine ⟨hd, ?_⟩
  simp only [Java_org_apache_accumulo_core_util_Timer_getThreadCpuTime, Java_org_apache_accumulo_core_util_Timer_getProcessCpuTime, hd]

/-- Witness for C7: the platform without RUSAGE_THREAD, on a kernel reporting 3.75 s. -/
theorem C7_thread_cpu_degrades_to_process_witness :
    osx.header_RUSAGE_THREAD = none ∧
    RUSAGE_THREAD osx = osx.RUSAGE_SELF ∧
    Java_org_apache_accumulo_core_util_Timer_getThreadCpuTime osx busyKernel = Java_org_apache_accumulo_core_util_Timer_getProcessCpuTime osx busyKernel :=
  ⟨rfl, C7_thread_cpu_degrades_to_process osx busyKernel rfl⟩

/-! ## Kernel queries per call (C8) -/

/-- C8, evaluated on the code: for every platform, kernel state and buffer, seven of the eight
entry points raise the query counter by exactly 1, and getProcessSystemTime leaves the counter
(and the whole kernel state) as it was: it issues no query. -/
theorem C8_queries_per_call (p : Platform) (k : Kernel) (arr : List Int) :
    (Java_org_apache_accumulo_core_util_Timer_getProcessCpuTime p k).2.queries = k.queries + 1 ∧
    (Java_org_apache_accumulo_core_util_Timer_getProcessUserTime p k).2.queries = k.queries + 1 ∧
    (Java_org_apache_accumulo_core_util_Timer_getProcessRUsage p k arr).kernel.queries = k.queries + 1 ∧
    (Java_org_apache_accumulo_core_util_Timer_getThreadCpuTime p k).2.queries = k.queries + 1 ∧
    (Java_org_apache_accumulo_core_util_Timer_getThreadUserTime p k).2.queries = k.queries + 1 ∧
    (Java_org_apache_accumulo_core_util_Timer_getThreadSystemTime p k).2.queries = k.queries + 1 ∧
    (Java_org_apache_accumulo_core_util_Timer_getThreadRUsage p k arr).kernel.queries = k.queries + 1 ∧
    (Java_org_apache_accumulo_core_util_Timer_getProcessSystemTime p k).2 = k ∧
    (Java_org_apache_accumulo_core_util_Timer_getProcessSystemTime p k).2.queries ≠ k.queries + 1 := by
  refine ⟨?_, ?_, ?_, ?_, ?_, ?_, ?_, rfl, ?_⟩
  · exact getCpuTime_queries _ k
  · exact getUserTime_queries _ k
  · exact getRusage_queries _ k arr
  · exact getCpuTime_queries _ k
  · exact getUserTime_queries _ k
  · exact getSystemTime_queries _ k
  · exact getRusage_queries _ k arr
  · simp only [Java_org_apache_accumulo_core_util_Timer_getProcessSystemTime]
    exact Nat.ne_of_lt (Nat.lt_succ_self k.queries)

/-! ## Monotonicity (C9) -/

/-- C9 refuted: two records with normalised timevals, ordered member by member (user seconds
2^62 - 1 then 2^62, system seconds 2^62 in both), for which getCpuTime on the later record is
-2^63 and on the earlier record 2^63 - 1: the long addition of line 43 wraps. -/
theorem C9_cpu_time_not_monotone :
    (nearHugeKernel.usage 0).ru_utime.normalised ∧
    (nearHugeKernel.usage 0).ru_stime.normalised ∧
    (hugeKernel.usage 0).ru_utime.normalised ∧
    (hugeKernel.usage 0).ru_stime.normalised ∧
    (nearHugeKernel.usage 0).ru_utime.le (hugeKernel.usage 0).ru_utime ∧
    (nearHugeKernel.usage 0).ru_stime.le (hugeKernel.usage 0).ru_stime ∧
    (getCpuTime 0 hugeKernel).1 = -9223372036854775808 ∧
    (getCpuTime 0 nearHugeKernel).1 = 9223372036854775807 ∧
    ¬ ((getCpuTime 0 hugeKernel).1 ≥ (getCpuTime 0 nearHugeKernel).1) := by
  have hl : (getCpuTime 0 hugeKernel).1 = -9223372036854775808 := by
    norm_num [getCpuTime, getrusage, add_long, wrap_long, hugeKernel, hugeRecord]
  have he : (getCpuTime 0 nearHugeKernel).1 = 9223372036854775807 := by
    norm_num [getCpuTime, getrusage, add_long, wrap_long, nearHugeKernel, nearHugeRecord]
  refine ⟨?_, ?_, ?_, ?_, ?_, ?_, hl, he, ?_⟩
  · simp [timeval.normalised, nearHugeKernel, nearHugeRecord]
  · simp [timeval.normalised, nearHugeKernel, nearHugeRecord]
  · simp [timeval.normalised, hugeKernel, hugeRecord]
  · simp [timeval.normalised, hugeKernel, hugeRecord]
  · simp [timeval.le, nearHugeKernel, nearHugeRecord, hugeKernel, hugeRecord]
  · simp [timeval.le, nearHugeKernel, nearHugeRecord, hugeKernel, hugeRecord]
  · rw [hl, he]
    norm_num

/-- C9 amended: for every domain and every two kernel states whose records for that domain have
normalised user and system timevals (0 <= microseconds < 1000000) with earlier.utime <=
later.utime and earlier.stime <= later.stime in lexicographic order, getUserTime and
getSystemTime return on the later state a value at least the one on the earlier state; and when
in both records utime.seconds + stime.seconds lies within the range of a 64-bit long, so does
getCpuTime. -/
theorem C9_scalar_conversions_monotone (type : Int) (earlier later : Kernel)
    (hu1 : (earlier.usage type).ru_utime.normalised)
    (hs1 : (earlier.usage type).ru_stime.normalised)
    (hu2 : (later.usage type).ru_utime.normalised)
    (hs2 : (later.usage type).ru_stime.normalised)
    (hu : (earlier.usage type).ru_utime.le (later.usage type).ru_utime)
    (hs : (earlier.usage type).ru_stime.le (later.usage type).ru_stime) :
    (getUserTime type later).1 ≥ (getUserTime type earlier).1 ∧
    (getSystemTime type later).1 ≥ (getSystemTime type earlier).1 ∧
    (fits_long ((earlier.usage type).ru_utime.tv_sec + (earlier.usage type).ru_stime.tv_sec) →
      fits_long ((later.usage type).ru_utime.tv_sec + (later.usage type).ru_stime.tv_sec) →
      (getCpuTime type later).1 ≥ (getCpuTime type earlier).1) := by
  have mu := timeval_seconds_mono _ _ hu1 hu2 hu
  have ms := timeval_seconds_mono _ _ hs1 hs2 hs
  refine ⟨?_, ?_, ?_⟩
  · simpa only [getUserTime_value, ge_iff_le] using mu
  · simpa only [getSystemTime_value, ge_iff_le] using ms
  · intro he hl
    rw [getCpuTime_value type later hl (fits_long_usec_sum _ _ hu2 hs2),
      getCpuTime_value type earlier he (fits_long_usec_sum _ _ hu1 hs1)]
    exact add_le_add mu ms

/-- Witness for C9 amended: 1.75 s / 0.5 s earlier, 2.5 s / 1.25 s later, process domain. -/
theorem C9_scalar_conversions_monotone_witness :
    (getUserTime 0 busyKernel).1 ≥ (getUserTime 0 earlyKernel).1 ∧
    (getSystemTime 0 busyKernel).1 ≥ (getSystemTime 0 earlyKernel).1 ∧
    (getCpuTime 0 busyKernel).1 ≥ (getCpuTime 0 earlyKernel).1 :=
  have h := C9_scalar_conversions_monotone 0 earlyKernel busyKernel
    (by simp [timeval.normalised, earlyKernel, earlyRecord])
    (by simp [timeval.normalised, earlyKernel, earlyRecord])
    (by simp [timeval.normalised, busyKernel, busyRecord])
    (by simp [timeval.normalised, busyKernel, busyRecord])
    (by simp [timeval.le, earlyKernel, earlyRecord, busyKernel, busyRecord])
    (by simp [timeval.le, earlyKernel, earlyRecord, busyKernel, busyRecord])
  ⟨h.1, h.2.1, h.2.2 (by norm_num [fits_long, earlyKernel, earlyRecord, busyRecord])
    (by norm_num [fits_long, busyKernel, busyRecord])⟩

/-! ## Non-negativity (C10) -/

/-- C10 refuted: a record whose four time fields are all >= 0 (user and system seconds both
2^62, microseconds 0) for which getCpuTime returns -2^63, a negative value: the long addition
of line 43 wraps. -/
theorem C10_cpu_time_negative :
    0 ≤ (hugeKernel.usage 0).ru_utime.tv_sec ∧ 0 ≤ (hugeKernel.usage 0).ru_utime.tv_usec ∧
    0 ≤ (hugeKernel.usage 0).ru_stime.tv_sec ∧ 0 ≤ (hugeKernel.usage 0).ru_stime.tv_usec ∧
    (getCpuTime 0 hugeKernel).1 < 0 := by
  refine ⟨?_, ?_, ?_, ?_, ?_⟩
  · simp [hugeKernel, hugeRecord]
  · simp [hugeKernel, hugeRecord]
  · simp [hugeKernel, hugeRecord]
  · simp [hugeKernel, hugeRecord]
  · norm_num [getCpuTime, getrusage, add_long, wrap_long, hugeKernel, hugeRecord]

/-- C10 amended: for every domain and kernel state whose record for that domain has
seconds >= 0 and microseconds >= 0 in both utime and stime, the values returned by getUserTime
and getSystemTime are >= 0; and when the sums utime.seconds + stime.seconds and
utime.microseconds + stime.microseconds lie within the range of a 64-bit long, the value
returned by getCpuTime is >= 0 too. -/
theorem C10_scalar_conversions_nonneg (type : Int) (k : Kernel)
    (hus : 0 ≤ (k.usage type).ru_utime.tv_sec) (huu : 0 ≤ (k.usage type).ru_utime.tv_usec)
    (hss : 0 ≤ (k.usage type).ru_stime.tv_sec) (hsu : 0 ≤ (k.usage type).ru_stime.tv_usec) :
    0 ≤ (getUserTime type k).1 ∧ 0 ≤ (getSystemTime type k).1 ∧
    (fits_long ((k.usage type).ru_utime.tv_sec + (k.usage type).ru_stime.tv_sec) →
      fits_long ((k.usage type).ru_utime.tv_usec + (k.usage type).ru_stime.tv_usec) →
      0 ≤ (getCpuTime type k).1) := by
  have nu := timeval_seconds_nonneg _ hus huu
  have ns := timeval_seconds_nonneg _ hss hsu
  refine ⟨?_, ?_, ?_⟩
  · simpa only [getUserTime_value] using nu
  · simpa only [getSystemTime_value] using ns
  · intro hsec husec
    rw [getCpuTime_value type k hsec husec]
    exact add_nonneg nu ns

/-- Witness for C10 amended: a kernel reporting 2.5 s of user time and 1.25 s of system
time. -/
theorem C10_scalar_conversions_nonneg_witness :
    0 ≤ (getUserTime 0 busyKernel).1 ∧ 0 ≤ (getSystemTime 0 busyKernel).1 ∧
      0 ≤ (getCpuTime 0 busyKernel).1 :=
  have h := C10_scalar_conversions_nonneg 0 busyKernel
    (by simp [busyKernel, busyRecord]) (by simp [busyKernel, busyRecord])
    (by simp [busyKernel, busyRecord]) (by simp [busyKernel, busyRecord])
  ⟨h.1, h.2.1, h.2.2 (by norm_num [fits_long, busyKernel, busyRecord])
    (by norm_num [fits_long, busyKernel, busyRecord])⟩

end Timer
